import Mathlib

/-!
Shallow embedding of the git-repo-research MCP client
(src/mcp_integration.py, src/agent_manager.py, src/config.py).

External effects (the MCP stdio session, subprocess launches, json.loads,
the Bedrock call) are modelled as explicit oracle parameters; every call
issued to the external tool server is recorded in an effect trace so that
"zero external calls" and "variant X was never attempted" are provable
statements.
-/

set_option maxRecDepth 40000

namespace S2P

/-! ## Python string primitives -/

/-- Character-list prefix test (helper for the substring test). -/
def chPre : List Char → List Char → Bool
  | [], _ => true
  | _ :: _, [] => false
  | a :: as, b :: bs => a == b && chPre as bs

/-- Character-list substring test (helper for `pyIn`). -/
def chSub (pat : List Char) : List Char → Bool
  | [] => chPre pat []
  | b :: bs => chPre pat (b :: bs) || chSub pat bs

/-- Python `pat in s` on strings (substring containment). -/
def pyIn (pat s : String) : Bool := chSub pat.data s.data

/-- Python `s.lower()` (ASCII case folding; all strings compared here are ASCII). -/
def pyLower (s : String) : String := String.mk (s.data.map Char.toLower)

/-- ASCII whitespace stripped by Python `str.strip()`. -/
def wsChar (c : Char) : Bool :=
  c == ' ' || c == '\t' || c == '\n' || c == '\r' || c == '\x0b' || c == '\x0c'

/-- Python `s.strip()`. -/
def pyStrip (s : String) : String :=
  String.mk (((s.data.dropWhile wsChar).reverse.dropWhile wsChar).reverse)

/-- Python `s.startswith(pre)`. -/
def pyStartswith (s pre : String) : Bool := chPre pre.data s.data

/-- Fuel-driven worker for `pySplit` (fuel bounds the scan; each step consumes
at least one character, so `s.length` fuel always suffices). -/
def splitGo (sep : List Char) : Nat → List Char → List Char → List (List Char)
  | _, acc, [] => [acc.reverse]
  | 0, acc, s => [acc.reverse ++ s]
  | fuel + 1, acc, c :: cs =>
    if chPre sep (c :: cs) then
      acc.reverse :: splitGo sep fuel [] (List.drop (sep.length - 1) cs)
    else splitGo sep fuel (c :: acc) cs

/-- Python `s.split(sep)` for a nonempty separator. -/
def pySplit (s sep : String) : List String :=
  (splitGo sep.data s.data.length [] s.data).map String.mk

/-- Python `s.split(sep)[-1]` for a nonempty separator. -/
def pySplitLast (s sep : String) : String := (pySplit s sep).getLastD s

/-- Fuel-driven worker for `pyReplace` (non-overlapping, left to right). -/
def replGo (pat repl : List Char) : Nat → List Char → List Char
  | _, [] => []
  | 0, s => s
  | fuel + 1, c :: cs =>
    if chPre pat (c :: cs) then
      repl ++ replGo pat repl fuel (List.drop (pat.length - 1) cs)
    else c :: replGo pat repl fuel cs

/-- Python `s.replace(pat, repl)` for a nonempty pattern. -/
def pyReplace (s pat repl : String) : String :=
  String.mk (replGo pat.data repl.data s.data.length s.data)

/-- Python `s[:n]` (character slice). -/
def pyTakeChars (s : String) (n : Nat) : String := String.mk (s.data.take n)

/-- Python `"".join(xs)`. -/
def pyConcat (xs : List String) : String :=
  String.mk (xs.foldr (fun x acc => x.data ++ acc) [])

/-- Python `sep.join(xs)`. -/
def pyJoinSep (sep : String) : List String → String
  | [] => ""
  | x :: rest => rest.foldl (fun acc y => acc ++ sep ++ y) x

/-- Python `s.replace(".git", "")` as used repeatedly in the source. -/
def stripGit (s : String) : String := pyReplace s ".git" ""

/-- Python truthiness of an `Optional[str]`: `None` and `""` are falsy. -/
def pyTruthyOpt : Option String → Bool
  | none => false
  | some s => s != ""

/-! ## mcp_integration.py: repository-name derivation

The source derives repo_name by taking the last slash-separated component of
the URL when the URL contains a slash, then dropping every occurrence of the
".git" suffix text (lines 255 and 324). -/

def repoNameOf (repo_url : String) : String :=
  if pyIn "/" repo_url then stripGit (pySplitLast repo_url "/") else stripGit repo_url

/-! ## External-call effect model -/

/-- One observable call issued to the external tool server. `connect` is the
stdio subprocess launch + session initialization, `listTools` the initial
tool-roster query; the rest are `session.call_tool` invocations with the
exact argument shapes built in `mcp_integration.py`. -/
inductive ToolCall where
  | connect
  | listTools
  | create (repository_path : String) (embedding_model : String)
  | search (index_path : String) (query : String) (limit : Nat)
  | searchRepos (keywords : List String) (num_results : Nat)
  | accessFile (filepath : String)
  | generic (name : String) (repository_url : String)
deriving DecidableEq, Repr

/-- Oracle for the live MCP session: the advertised tool roster and, for each
issued call, either a raised exception (`.error msg`, message `str(e)`) or the
list of text items in `result.content` (`.ok []` models empty content). -/
structure Session where
  availableTools : List String
  respond : ToolCall → Except String (List String)

/-! ## Marker strings tested by the source -/

def zeroMatchesMarker : String := "\"results\": []"
def searchErrorMarker : String := "Error searching"
def fileErrorMarker : String := "\"status\": \"error\""
def notFoundMarker : String := "not found"
def realDataMarker : String := "Real Repository Data from MCP Server"
def indexingMarker : String := "Repository Indexing:"

/-! ## _comprehensive_repository_analysis (mcp_integration.py lines 317-466) -/

/-- Index-address variants tried by the search stage (lines 376-381). -/
def possibleIndexPaths (repo_name repo_url : String) : List String :=
  [repo_name,
   repo_name ++ "_git",
   pySplitLast repo_url "/",
   stripGit (pySplitLast repo_url "/")]

/-- Topical search queries of the search stage (lines 367-371). -/
def searchQueries : List String :=
  ["README documentation overview",
   "architecture structure organization",
   "dependencies requirements setup"]

/-- Well-known files probed by the file-access stage (line 417). -/
def keyFiles : List String :=
  ["README.md", "package.json", "requirements.txt", "Dockerfile", "setup.py"]

/-- Path variants tried by the file-access stage (lines 422-427). -/
def possibleFilePaths (repo_name file : String) : List String :=
  [repo_name ++ "/repository/" ++ file,
   repo_name ++ "_git/repository/" ++ file,
   repo_name ++ "/" ++ file,
   repo_name ++ "_git/" ++ file]

/-- Acceptance test of the search stage, factored out of `searchQueryRun`:
the response raised no exception, `result.content` is truthy, and the joined
text carries neither the zero-matches nor the error marker (lines 393-397). -/
def searchGood (resp : Except String (List String)) : Bool :=
  match resp with
  | .error _ => false
  | .ok items =>
    !items.isEmpty
      && !(pyIn zeroMatchesMarker (pyConcat items))
      && !(pyIn searchErrorMarker (pyConcat items))

/-- Inner variant loop of the search stage for one topical query
(lines 384-405): try each index-path variant in order, accept the first whose
response passes `searchGood`, record the formatted entry, stop. Per-variant
exceptions are swallowed and the loop continues. Returns the recorded entry
(if any) and the trace of issued calls. -/
def searchQueryRun (session : Session) (query : String) :
    List String → Option String × List ToolCall
  | [] => (none, [])
  | ip :: rest =>
    let call := ToolCall.search ip query 3
    match session.respond call with
    | .error _ =>
      let r := searchQueryRun session query rest
      (r.1, call :: r.2)
    | .ok items =>
      if items.isEmpty then
        let r := searchQueryRun session query rest
        (r.1, call :: r.2)
      else
        let content := pyConcat items
        if !(pyIn zeroMatchesMarker content) && !(pyIn searchErrorMarker content) then
          (some ("**Search Results for \x27" ++ query ++ "\x27:**\n" ++ content), [call])
        else
          let r := searchQueryRun session query rest
          (r.1, call :: r.2)

/-- Outer loop of the search stage over the topical queries (line 373). -/
def searchLoop (session : Session) (repo_name repo_url : String) :
    List String → List String × List ToolCall
  | [] => ([], [])
  | q :: qs =>
    let r := searchQueryRun session q (possibleIndexPaths repo_name repo_url)
    let rest := searchLoop session repo_name repo_url qs
    ((match r.1 with | some s => [s] | none => []) ++ rest.1, r.2 ++ rest.2)

/-- Inner variant loop of the file-access stage for one well-known file
(lines 430-447): accept the first path variant whose content carries neither
the error-status marker nor (case-folded) "not found"; captured content is
truncated to a 500-character preview. -/
def fileQueryRun (session : Session) (file : String) :
    List String → Option String × List ToolCall
  | [] => (none, [])
  | fp :: rest =>
    let call := ToolCall.accessFile fp
    match session.respond call with
    | .error _ =>
      let r := fileQueryRun session file rest
      (r.1, call :: r.2)
    | .ok items =>
      if items.isEmpty then
        let r := fileQueryRun session file rest
        (r.1, call :: r.2)
      else
        let content := pyConcat items
        if !(pyIn fileErrorMarker content) && !(pyIn notFoundMarker (pyLower content)) then
          (some ("**" ++ file ++ ":**\n" ++ pyTakeChars content 500 ++ "..."), [call])
        else
          let r := fileQueryRun session file rest
          (r.1, call :: r.2)

/-- Outer loop of the file-access stage over the well-known files (line 419). -/
def fileLoop (session : Session) (repo_name : String) :
    List String → List String × List ToolCall
  | [] => ([], [])
  | f :: fs =>
    let r := fileQueryRun session f (possibleFilePaths repo_name f)
    let rest := fileLoop session repo_name fs
    ((match r.1 with | some s => [s] | none => []) ++ rest.1, r.2 ++ rest.2)

/-- Step 1 of the comprehensive analysis (lines 327-362): issue one
`create_research_repository` call; on nonempty content record the indexing
entry, mark the index created, and, when the content parses as a JSON object
with an `index_path` field, override the derived repository name with that
last component of that path (lines 348-358; any extraction failure is swallowed by
the bare `except` and keeps the derived name). `jsonLoads` is the oracle for
`json.loads` — `none` models a raised decode error; string-valued fields only,
since a non-string `index_path` would raise and be swallowed the same way.
Returns (recorded results, index_created, repo_name for later stages, trace). -/
def indexStage (session : Session)
    (jsonLoads : String → Option (List (String × String))) (repo_url : String) :
    List String × Bool × String × List ToolCall :=
  let repo_name := repoNameOf repo_url
  if session.availableTools.contains "create_research_repository" then
    let call := ToolCall.create repo_url "amazon.titan-embed-text-v2:0"
    match session.respond call with
    | .error e =>
      (["**Repository Indexing:** Failed - " ++ e], false, repo_name, [call])
    | .ok items =>
      if items.isEmpty then ([], false, repo_name, [call])
      else
        let content := pyConcat items
        let repo_name2 :=
          if pyStartswith (pyStrip content) "\x7b" then
            match jsonLoads content with
            | some result_data =>
              match result_data.lookup "index_path" with
              | some actual_index_path => pySplitLast actual_index_path "/"
              | none => repo_name
            | none => repo_name
          else repo_name
        (["**Repository Indexing:**\n" ++ content], true, repo_name2, [call])
  else ([], false, repo_name, [])

/-- Embedding of `_comprehensive_repository_analysis` (lines 317-466): the three-stage
pipeline. The search stage runs only when the index was created and the search
tool is advertised (line 365); the file-access stage runs whenever the file
tool is advertised (line 415). Results are joined with blank lines; when no
stage produced content the fixed explanatory sentence is returned (line 462).
Every failure inside the stages is handled locally, so the outer
`except` (line 464) is unreachable and not modelled. -/
def comprehensive_repository_analysis (session : Session)
    (jsonLoads : String → Option (List (String × String))) (repo_url : String) :
    String × List ToolCall :=
  let s1 := indexStage session jsonLoads repo_url
  let res1 := s1.1
  let index_created := s1.2.1
  let repo_name := s1.2.2.1
  let t1 := s1.2.2.2
  let s2 :=
    if index_created && session.availableTools.contains "search_research_repository" then
      searchLoop session repo_name repo_url searchQueries
    else ([], [])
  let s3 :=
    if session.availableTools.contains "access_file" then
      fileLoop session repo_name keyFiles
    else ([], [])
  let results := res1 ++ s2.1 ++ s3.1
  let out :=
    if !results.isEmpty then pyJoinSep "\n\n" results
    else "Repository analysis attempted for " ++ repo_url ++
      ". Index creation may have succeeded, but search and file access encountered path resolution issues. The repository has been indexed and is available for future searches."
  (out, t1 ++ s2.2 ++ s3.2)

/-! ## _fallback_analysis (mcp_integration.py lines 468-574) -/

/-- Document returned when no repository URL is given (lines 472-501). -/
def fallbackGeneric (tool_name : String) : String :=
  "\n**General Repository Analysis Guidance**\n\nTool: " ++ tool_name ++
  "\n\nFor comprehensive Git repository research, you can:\n\n1. **Repository Structure Analysis**\n   - Examine directory organization and file patterns\n   - Identify main components and modules\n   - Review configuration files and documentation\n\n2. **Code Quality Assessment**\n   - Look for consistent coding patterns\n   - Check for test coverage and CI/CD setup\n   - Review code organization and architecture\n\n3. **Dependency Analysis**\n   - Examine package.json, requirements.txt, or similar files\n   - Check for outdated or vulnerable dependencies\n   - Review dependency management practices\n\n4. **Development Activity**\n   - Analyze commit frequency and patterns\n   - Review contributor activity and collaboration\n   - Check issue and pull request management\n\n**Note:** For automated analysis with real repository data, ensure the MCP server (awslabs.git-repo-research-mcp-server) is properly installed and configured.\n"

/-- Document returned for a public repository URL (lines 504-542). -/
def fallbackPublic (repo_url tool_name : String) : String :=
  "\n**Public Repository Analysis: " ++ repo_url ++ "**\n\nTool: " ++ tool_name ++
  "\nRepository Type: Public\nAccess Method: Direct (no authentication required)\n\n**Manual Analysis Steps:**\n\n1. **Visit the Repository**\n   - Go to: " ++ repo_url ++
  "\n   - Review the README.md for project overview\n   - Check the repository structure and organization\n\n2. **Code Analysis**\n   - Examine the main source code directories\n   - Look for architectural patterns and design choices\n   - Review configuration and build files\n\n3. **Activity Assessment**\n   - Check recent commits and contributor activity\n   - Review open/closed issues and pull requests\n   - Analyze release history and versioning\n\n4. **Dependencies & Security**\n   - Review dependency files (package.json, requirements.txt, etc.)\n   - Check for security advisories or vulnerability reports\n   - Examine CI/CD configuration if present\n\n**For Automated Analysis:**\nTo get comprehensive automated analysis with real repository data, ensure:\n- MCP server (awslabs.git-repo-research-mcp-server) is installed via: `uvx awslabs.git-repo-research-mcp-server@latest`\n- AWS credentials are properly configured\n- The server is accessible from this application\n\nRepository URL: " ++ repo_url ++
  "\nAnalysis Type: " ++ tool_name ++ "\n"

/-- Document returned for a private (or any non-public) repository URL
(lines 544-574); its last line embeds the truthiness of the instance field
`self.github_token`, which is not an argument of the function. -/
def fallbackPrivate (github_token : Option String) (repo_url tool_name : String) : String :=
  "\n**Private Repository Analysis: " ++ repo_url ++ "**\n\nTool: " ++ tool_name ++
  "\nRepository Type: Private\nAccess Method: Authenticated (GitHub token required)\n\n**Prerequisites for Private Repository Analysis:**\n\n1. **GitHub Token Configuration**\n   - Ensure your GitHub personal access token is set\n   - Token must have appropriate repository access permissions\n   - Token should include \x27repo\x27 scope for full repository access\n\n2. **MCP Server Setup**\n   - Install: `uvx awslabs.git-repo-research-mcp-server@latest`\n   - Configure GitHub token in environment variables\n   - Ensure AWS credentials are properly set\n\n3. **Manual Analysis (if automated tools unavailable)**\n   - Access the repository directly: " ++ repo_url ++
  "\n   - Review code structure and organization\n   - Analyze commit history and contributor patterns\n   - Examine dependencies and security considerations\n\n**Security Note:** Private repositories may contain sensitive information. Ensure proper access controls and review permissions before analysis.\n\nRepository URL: " ++ repo_url ++
  "\nAnalysis Type: " ++ tool_name ++
  "\nToken Status: " ++ (if pyTruthyOpt github_token then "✅ Configured" else "❌ Missing") ++ "\n"

/-- Embedding of `_fallback_analysis(repo_url, repo_type, tool_name)`: three-way document
selection (lines 472, 504, 543). The method also reads `self.github_token`
for the token-status line of the private document, passed here explicitly. -/
def fallback_analysis (github_token : Option String)
    (repo_url repo_type tool_name : String) : String :=
  if repo_url == "" then fallbackGeneric tool_name
  else if pyLower repo_type == "public" then fallbackPublic repo_url tool_name
  else fallbackPrivate github_token repo_url tool_name

/-! ## _test_mcp_server (mcp_integration.py lines 92-126) -/

/-- Outcome of the probe subprocess interaction: an exception anywhere in
the launch/communicate (`launchError`), completion within the 10-second
timeout with a return code and captured stderr (`completed`), or a
`TimeoutExpired` because the server was still running (`timedOut`). -/
inductive ProbeOutcome where
  | launchError (msg : String)
  | completed (returncode : Int) (stderr : String)
  | timedOut
deriving DecidableEq, Repr

/-- Embedding of `_test_mcp_server`: returns (availability verdict, whether the process was
killed). On completion the verdict is `returncode == 0 or "MCP server" in
stderr` (line 116); on timeout the process is killed and the verdict is
`True` (lines 119-122); any exception yields `False` (lines 124-126). The
function never raises: every failure is absorbed into the verdict. -/
def test_mcp_server : ProbeOutcome → Bool × Bool
  | .launchError _ => (false, false)
  | .completed rc stderr => (rc == 0 || pyIn "MCP server" stderr, false)
  | .timedOut => (true, true)

/-! ## MCPIntegration state, setup, list_tools, call_tool -/

/-- Mutable fields of `MCPIntegration` (lines 17-23). A tool descriptor is a
(name, description) pair. -/
structure MCPState where
  github_token : Option String := none
  tools_cache : Option (List (String × String)) := none
  connected : Bool := false
  public_mode : Bool := false
  mcp_available : Bool := false
deriving DecidableEq, Repr

/-- Live tool roster installed by a successful setup (lines 44-65). -/
def liveToolsCache : List (String × String) :=
  [("create_research_repository",
    "Build a FAISS index for a Git repository for semantic search and analysis"),
   ("search_research_repository",
    "Perform semantic search within an indexed repository to find relevant code and documentation"),
   ("search_repos_on_github",
    "Search for GitHub repositories based on keywords in AWS organizations"),
   ("access_file",
    "Access file or directory contents from indexed repositories"),
   ("repository_analysis",
    "Comprehensive repository analysis using indexing and semantic search")]

/-- Fallback tool roster (lines 133-142). -/
def fallbackToolsCache : List (String × String) :=
  [("basic_repository_info", "Basic repository information and structure analysis"),
   ("repository_guidance", "General guidance for repository analysis and best practices")]

/-- Embedding of `_setup_fallback` (lines 128-146): always succeeds, leaving the client
connected in fallback mode. -/
def setup_fallback (st : MCPState) : Bool × MCPState :=
  (true, { st with mcp_available := false, tools_cache := some fallbackToolsCache,
                   connected := true })

/-- Embedding of `setup_client` (lines 25-78). `uvxAvailable` and `serverAvailable` are the
(internally exception-safe) probe verdicts; `unexpectedFailure` models any
other exception inside the `try` body, whose handler also ends in
`_setup_fallback` — since `_setup_fallback` overwrites every field the success
path touches, the position of such an exception does not affect the final
state, so it is modelled as a single flag. -/
def setup_client (st : MCPState) (uvxAvailable serverAvailable unexpectedFailure : Bool) :
    Bool × MCPState :=
  if unexpectedFailure then setup_fallback st
  else if !uvxAvailable then setup_fallback st
  else if !serverAvailable then setup_fallback st
  else (true, { st with mcp_available := true, tools_cache := some liveToolsCache,
                        connected := true })

/-- Python exception values surfaced to callers. -/
inductive PyError where
  | runtimeError (msg : String)
  | valueError (msg : String)
deriving DecidableEq, Repr

/-- The not-initialized error raised by `list_tools` and `call_tool`
(lines 151 and 163). -/
def notInitError : PyError :=
  .runtimeError "MCP client not initialized. Call setup_client() first."

/-- Embedding of `list_tools` (lines 148-158): guard on `_connected`, then return the
cache (always a list once connected; `getD` covers the impossible `None`). -/
def list_tools (st : MCPState) : Except PyError (List (String × String)) :=
  if !st.connected then .error notInitError
  else .ok (st.tools_cache.getD [])

/-- Embedding of `close` (lines 610-617). -/
def closeClient (st : MCPState) : MCPState :=
  { st with connected := false, tools_cache := none }

/-- Arguments dictionary of `call_tool` with the defaults `args.get` supplies
for absent keys (lines 167-170). -/
structure ToolArgs where
  repository_url : String := ""
  repository_type : String := "public"
  token_available : Bool := false
deriving DecidableEq, Repr

/-- Origin label of a tool-call result, per the data model of the spec: `live` for
text returned from the live-call path of `_call_real_mcp_tool` (real server
data, including the comprehensive-analysis pipeline output), `fallback` for
text synthesized by `_fallback_analysis`. The code carries no explicit tag;
the label records which code path produced the string. -/
inductive Origin where
  | live
  | fallback
deriving DecidableEq, Repr

/-- Argument shapes built per tool for the generic live-call path
(lines 254-286). The `mcp_tool_mapping` dict (lines 240-245) maps each of its
four keys to itself, so `mapping.get(t, t) = t` and it is not modelled
separately. -/
def genericToolCall (tool_name repo_url : String) : ToolCall :=
  let repo_name := repoNameOf repo_url
  if tool_name == "create_research_repository" then
    .create repo_url "amazon.titan-embed-text-v2:0"
  else if tool_name == "search_research_repository" then
    .search (repo_name ++ "_git") "repository structure architecture dependencies" 5
  else if tool_name == "search_repos_on_github" then
    let repo_parts := pySplit (stripGit (pySplitLast repo_url "/")) "-"
    let keywords := (repo_parts.filter (fun p => p.length > 2)).take 3
    .searchRepos (if keywords.isEmpty then [repo_name] else keywords) 3
  else if tool_name == "access_file" then
    .accessFile (repo_name ++ "_git/repository/README.md")
  else .generic tool_name repo_url

/-- Embedding of `_call_real_mcp_tool` (lines 192-315). `mcpImportOk` models whether the
`mcp` client package imports (lines 198-203); `connectOk` whether the stdio
connection and session initialization succeed. Every exception is caught by
the outer handler and converted to a fallback result (lines 312-315), so the
function is total. Environment construction (lines 206-215) has no observable
effect in this model. Returns ((text, origin), trace of external calls). -/
def call_real_mcp_tool (github_token : Option String) (mcpImportOk connectOk : Bool)
    (session : Session) (jsonLoads : String → Option (List (String × String)))
    (tool_name repo_url repo_type : String) : (String × Origin) × List ToolCall :=
  let fb : (String × Origin) := (fallback_analysis github_token repo_url repo_type tool_name, .fallback)
  if !mcpImportOk then (fb, [])
  else if !connectOk then (fb, [ToolCall.connect])
  else
    let pre := [ToolCall.connect, ToolCall.listTools]
    if tool_name == "repository_analysis" then
      let r := comprehensive_repository_analysis session jsonLoads repo_url
      ((r.1, .live), pre ++ r.2)
    else if !(session.availableTools.contains tool_name) then (fb, pre)
    else
      let call := genericToolCall tool_name repo_url
      match session.respond call with
      | .error _ => (fb, pre ++ [call])
      | .ok items =>
        if items.isEmpty then (fb, pre ++ [call])
        else
          let content_text := pyConcat items
          if pyStrip content_text == "" then (fb, pre ++ [call])
          else (("**Real Repository Data from MCP Server:**\n\n" ++ content_text, .live),
                pre ++ [call])

/-- The access-validation error raised at line 179. -/
def accessDeniedError : PyError :=
  .valueError "GitHub token is required for private repository access"

/-- Embedding of `call_tool` (lines 160-190): guard on `_connected`; reject a private
repository without a token by raising `ValueError` — the handler at
lines 188-190 logs and re-raises, so the error propagates to the caller;
otherwise dispatch to the live path when the server is available and a URL is
present, else synthesize fallback guidance. Returns the result (or raised
error) together with the trace of external calls issued. -/
def call_tool (st : MCPState) (mcpImportOk connectOk : Bool) (session : Session)
    (jsonLoads : String → Option (List (String × String)))
    (tool_name : String) (args : ToolArgs) :
    Except PyError (String × Origin) × List ToolCall :=
  if !st.connected then (.error notInitError, [])
  else
    let repo_url := args.repository_url
    let repo_type := args.repository_type
    let token_available := args.token_available
    if pyLower repo_type == "private" && !token_available then
      (.error accessDeniedError, [])
    else if st.mcp_available && repo_url != "" then
      let r := call_real_mcp_tool st.github_token mcpImportOk connectOk session jsonLoads
        tool_name repo_url repo_type
      (.ok r.1, r.2)
    else
      (.ok (fallback_analysis st.github_token repo_url repo_type tool_name, .fallback), [])

/-! ## agent_manager.py: query parsing, model resolution, prompt assembly -/

/-- The `repo_info` dictionary with its initial values (lines 97-102). -/
structure RepoInfo where
  has_repo : Bool := false
  url : String := ""
  type : String := "public"
  token_status : String := "no_token"
deriving DecidableEq, Repr

/-- One iteration of the parsing loop of `_parse_repository_info`
(lines 104-113): strip the line, branch on the three label prefixes,
strip the label (Python `replace` removes every occurrence) and the
surrounding whitespace; later lines overwrite earlier ones. -/
def parseLine (info : RepoInfo) (rawLine : String) : RepoInfo :=
  let line := pyStrip rawLine
  if pyStartswith line "Repository:" then
    let url := pyStrip (pyReplace line "Repository:" "")
    { info with url := url, has_repo := url != "" }
  else if pyStartswith line "Type:" then
    { info with type := pyStrip (pyReplace line "Type:" "") }
  else if pyStartswith line "Token:" then
    { info with token_status := pyStrip (pyReplace line "Token:" "") }
  else info

/-- Embedding of `_parse_repository_info` (lines 95-115). -/
def parse_repository_info (query : String) : RepoInfo :=
  (pySplit query "\n").foldl parseLine {}

/-- Embedding of `can_access_repository` (mcp_integration.py lines 586-592). -/
def can_access_repository (github_token : Option String) (repo_type : String) : Bool :=
  if pyLower repo_type == "public" then true
  else if pyLower repo_type == "private" then pyTruthyOpt github_token
  else false

/-- Embedding of `_find_and_test_nova_model` (lines 58-93): the candidate list is the
single hard-coded identifier; the synthetic test call (`testCall`, modelling
the minimal `invoke_model` request of lines 67-84) either succeeds, pinning
the identifier, or raises, and the method re-raises with the fixed message
prefix and the underlying error text (line 93). -/
def find_and_test_nova_model (testCall : String → Except String Unit) :
    Except String String :=
  let model_id := "amazon.nova-pro-v1:0"
  match testCall model_id with
  | .ok _ => .ok model_id
  | .error e => .error ("Could not access Nova Pro model. Error: " ++ e)

/-- The ordered candidate-identifier list the resolver works through
(a single element in this code base, line 61). -/
def novaCandidates : List String := ["amazon.nova-pro-v1:0"]

/-- The mutable configuration holding the pinned identifier
(config.py line 11 gives the pre-resolution default). -/
structure ConfigState where
  bedrock_model_id : String := "us.amazon.nova-pro-v1:0"
deriving DecidableEq, Repr

/-- Successful resolution writes the pinned identifier into the global
configuration (line 87); failure leaves it untouched and propagates. -/
def resolveAndPin (cfg : ConfigState) (testCall : String → Except String Unit) :
    Except String ConfigState :=
  match find_and_test_nova_model testCall with
  | .ok m => .ok { cfg with bedrock_model_id := m }
  | .error e => .error e

/-- The inference call `_call_bedrock` reads the pinned identifier from the configuration
(line 296); only the identifier flow is modelled. -/
def call_bedrock_model_used (cfg : ConfigState) : String := cfg.bedrock_model_id

/-- Embedding of `_create_system_prompt` (lines 117-136). -/
def systemPrompt : String :=
  "You are a Git Repository Research assistant with access to comprehensive repository analysis tools.\n\nUse the available tools to:\n- Analyze Git repositories and their structure\n- Research code patterns, dependencies, and architecture\n- Examine commit history, contributors, and development patterns\n- Investigate issues, pull requests, and project documentation\n- Provide insights on code quality, security, and best practices\n- Compare repositories and analyze trends\n\nWhen analyzing repositories:\n1. Always provide clear, actionable insights\n2. Use multiple tools to get comprehensive information\n3. Explain technical concepts in an accessible way\n4. Highlight important findings and potential issues\n5. Suggest improvements or next steps when appropriate\n\nProvide accurate analysis based on the repository data and research tools available."

/-- The three disclosure banners (lines 254-258). -/
def realBanner : String :=
  "🔍 REAL DATA ANALYSIS: The tool results above contain actual repository data from MCP server. Base your analysis on this real data and provide specific insights."

def guidanceBanner : String :=
  "📋 GUIDANCE MODE: MCP server data is not available. Provide expert guidance and manual analysis steps based on the repository information provided."

def generalBanner : String :=
  "🎯 GENERAL ANALYSIS: Provide expert guidance on repository analysis methodologies and best practices."

/-- The `has_real_data` flag (line 242): some gathered result text contains the
literal real-data marker. -/
def hasRealData (tool_results : List String) : Bool :=
  tool_results.any (fun r => pyIn realDataMarker r)

/-- First conditional banner segment of the prompt (line 254). -/
def banner1 (tool_results : List String) : String :=
  if hasRealData tool_results then realBanner else ""

/-- Second conditional banner segment (line 256). -/
def banner2 (tool_results : List String) : String :=
  if !tool_results.isEmpty && !hasRealData tool_results then guidanceBanner else ""

/-- Third conditional banner segment (line 258). -/
def banner3 (tool_results : List String) : String :=
  if tool_results.isEmpty then generalBanner else ""

/-- Embedding of `tools_info` (line 234). -/
def toolsInfo (tools : List (String × String)) : String :=
  pyJoinSep "\n" (tools.map fun t => "- " ++ t.1 ++ ": " ++ t.2)

/-- Embedding of `tool_results_text` (lines 237-239). -/
def toolResultsText (tool_results : List String) : String :=
  if tool_results.isEmpty then ""
  else "\n\nRepository Analysis Results:\n" ++ pyJoinSep "\n" tool_results

/-- Fixed prompt text preceding the banner segments (lines 244-252). -/
def promptHead (tools : List (String × String)) (query : String)
    (tool_results : List String) : String :=
  systemPrompt ++ "\n\nAvailable Git Repository Research Tools:\n" ++ toolsInfo tools ++
  "\n\nUser Query: " ++ query ++ "\n" ++ toolResultsText tool_results ++
  "\n\nAs a Git Repository Research assistant, please provide a comprehensive analysis for this query.\n\n"

/-- Fixed prompt text following the banner segments (lines 260-267); the
trailing blanks after "methodologies" are in the source. -/
def promptTail : String :=
  "\n\nAnalysis Guidelines:\n1. If real repository data is available, provide specific insights based on actual findings\n2. If only guidance is available, focus on actionable steps and methodologies  \n3. Always be clear about whether insights are based on real data or general guidance\n4. Provide practical, actionable recommendations\n5. Highlight important security, quality, or architectural considerations\n\nPlease provide detailed, actionable insights based on the available information."

/-- Embedding of `full_prompt` (lines 244-267). -/
def fullPrompt (tools : List (String × String)) (tool_results : List String)
    (query : String) : String :=
  promptHead tools query tool_results ++ banner1 tool_results ++ "\n\n" ++
  banner2 tool_results ++ "\n\n" ++ banner3 tool_results ++ promptTail

/-- Mutable fields of `AgentManager` that the query path reads (lines 20-25);
the Bedrock client handle itself is outside the model. -/
structure AgentState where
  github_token : Option String := none
  initialized : Bool := false
  mcp : MCPState := {}

/-- The additional-tool names tried after a successful indexing (line 197);
the loop takes the first two (line 198). -/
def additionalToolNames : List String := ["search_research_repository", "access_file"]

/-- Additional-tool loop (lines 198-212): each extra result is kept only when
it is truthy, longer than 100 characters, and free of the empty-results and
error-status markers; tool-call exceptions are swallowed and the loop
continues. -/
def additionalLoop (st : MCPState) (mcpImportOk connectOk : Bool) (session : Session)
    (jsonLoads : String → Option (List (String × String))) (tool_args : ToolArgs) :
    List String → List String × List ToolCall
  | [] => ([], [])
  | name :: rest =>
    let r := call_tool st mcpImportOk connectOk session jsonLoads name tool_args
    let acc := additionalLoop st mcpImportOk connectOk session jsonLoads tool_args rest
    match r.1 with
    | .error _ => (acc.1, r.2 ++ acc.2)
    | .ok res =>
      if res.1 != "" && res.1.length > 100
          && !(pyIn zeroMatchesMarker res.1) && !(pyIn fileErrorMarker res.1) then
        (("**" ++ name ++ "**: " ++ res.1) :: acc.1, r.2 ++ acc.2)
      else (acc.1, r.2 ++ acc.2)

/-- Individual-tool fallback loop used when the comprehensive call raised
(lines 217-228): call each of the first two catalogued tools, keep every
result, swallow per-tool exceptions. -/
def individualLoop (st : MCPState) (mcpImportOk connectOk : Bool) (session : Session)
    (jsonLoads : String → Option (List (String × String))) (tool_args : ToolArgs) :
    List (String × String) → List String × List ToolCall
  | [] => ([], [])
  | tool :: rest =>
    let r := call_tool st mcpImportOk connectOk session jsonLoads tool.1 tool_args
    let acc := individualLoop st mcpImportOk connectOk session jsonLoads tool_args rest
    match r.1 with
    | .error _ => (acc.1, r.2 ++ acc.2)
    | .ok res => (("**" ++ tool.1 ++ "**: " ++ res.1) :: acc.1, r.2 ++ acc.2)

/-- Result-gathering block of `process_query` (lines 160-230): when the query
names a repository, run the comprehensive analysis; on success wrap it, and if
its text reports an indexing entry run the additional tools; if it raised,
fall back to the first two catalogued tools. Returns the gathered result
texts and the full trace of external calls. -/
def gatherToolResults (ag : AgentState) (mcpImportOk connectOk : Bool) (session : Session)
    (jsonLoads : String → Option (List (String × String)))
    (tools : List (String × String)) (repo_info : RepoInfo) :
    List String × List ToolCall :=
  if repo_info.has_repo then
    let tool_args : ToolArgs :=
      { repository_url := repo_info.url, repository_type := repo_info.type,
        token_available := pyTruthyOpt ag.github_token }
    let r0 := call_tool ag.mcp mcpImportOk connectOk session jsonLoads
      "repository_analysis" tool_args
    match r0.1 with
    | .ok res =>
      let first := ["**Comprehensive Repository Analysis**: " ++ res.1]
      if pyIn indexingMarker res.1 then
        let extra := additionalLoop ag.mcp mcpImportOk connectOk session jsonLoads
          tool_args (additionalToolNames.take 2)
        (first ++ extra.1, r0.2 ++ extra.2)
      else (first, r0.2)
    | .error _ =>
      individualLoop ag.mcp mcpImportOk connectOk session jsonLoads tool_args (tools.take 2)
  else ([], [])

/-- Embedding of `process_query` up to the Bedrock call (lines 138-267): guard on
initialization, parse the repository fields, reject an inaccessible
repository, list the catalogued tools, gather tool results, and assemble the
full prompt. The prompt is what line 270 then sends to the model; the reply
of the model is opaque and not modelled. Returns the assembled prompt and the trace
of external tool-server calls. -/
def process_query_prompt (ag : AgentState) (mcpImportOk connectOk : Bool)
    (session : Session) (jsonLoads : String → Option (List (String × String)))
    (query : String) : Except PyError (String × List ToolCall) :=
  if !ag.initialized then
    .error (.runtimeError "Agent not initialized. Call initialize_agent() first.")
  else
    let repo_info := parse_repository_info query
    if repo_info.has_repo && !(can_access_repository ag.github_token repo_info.type) then
      if pyLower repo_info.type == "private" then
        .error (.valueError "GitHub token is required for private repository access. Please add a token in the sidebar.")
      else
        .error (.valueError "Unable to access repository. Please check the URL and try again.")
    else
      match list_tools ag.mcp with
      | .error e => .error e
      | .ok tools =>
        let gathered := gatherToolResults ag mcpImportOk connectOk session jsonLoads
          tools repo_info
        .ok (fullPrompt tools gathered.1 query, gathered.2)

/-! ## Helper lemmas on the string primitives -/

theorem chPre_self_append (p t : List Char) : chPre p (p ++ t) = true := by
  induction p with
  | nil => rfl
  | cons a as ih => simp [chPre, ih]

theorem chSub_self_append (pat t : List Char) : chSub pat (pat ++ t) = true := by
  cases pat with
  | nil => cases t <;> simp [chSub, chPre]
  | cons a as =>
    have h := chPre_self_append (a :: as) t
    simp only [List.cons_append] at h
    simp [chSub, h]

theorem chSub_middle (pat x y : List Char) : chSub pat (x ++ (pat ++ y)) = true := by
  induction x with
  | nil => simpa using chSub_self_append pat y
  | cons c cs ih => simp [chSub, ih]

/-- A string provably containing `pat` between two contexts passes `pyIn`. -/
theorem pyIn_decomp (pat s : String) (x y : List Char)
    (h : s.data = x ++ (pat.data ++ y)) : pyIn pat s = true := by
  unfold pyIn
  rw [h]
  exact chSub_middle _ _ _

/-! ## Helper lemmas on the banner selection -/

theorem hasRealData_ne_nil {tr : List String} (h : hasRealData tr = true) :
    tr.isEmpty = false := by
  cases tr with
  | nil => simp [hasRealData] at h
  | cons a l => rfl

theorem fullPrompt_data (tools : List (String × String)) (tr : List String)
    (query : String) :
    (fullPrompt tools tr query).data
      = (promptHead tools query tr).data ++ ((banner1 tr).data ++
        (("\n\n" ++ banner2 tr ++ "\n\n" ++ banner3 tr ++ promptTail).data)) := by
  simp [fullPrompt, String.data_append, List.append_assoc]

/-- When the real-data marker is present the prompt contains the real-data
banner. -/
theorem pyIn_realBanner (tools : List (String × String)) (tr : List String)
    (query : String) (h : hasRealData tr = true) :
    pyIn realBanner (fullPrompt tools tr query) = true := by
  apply pyIn_decomp _ _ ((promptHead tools query tr).data)
    (("\n\n" ++ banner2 tr ++ "\n\n" ++ banner3 tr ++ promptTail).data)
  have hb : banner1 tr = realBanner := by simp [banner1, h]
  rw [← hb]
  exact fullPrompt_data tools tr query

/-- When results exist but none carries the marker the prompt contains the
guidance banner. -/
theorem pyIn_guidanceBanner (tools : List (String × String)) (tr : List String)
    (query : String) (hne : tr.isEmpty = false) (h : hasRealData tr = false) :
    pyIn guidanceBanner (fullPrompt tools tr query) = true := by
  apply pyIn_decomp _ _ ((promptHead tools query tr ++ banner1 tr ++ "\n\n").data)
    (("\n\n" ++ banner3 tr ++ promptTail).data)
  have hb : banner2 tr = guidanceBanner := by simp [banner2, h, hne]
  rw [← hb]
  simp [fullPrompt, String.data_append, List.append_assoc]

/-- When no results were gathered the prompt contains the general banner. -/
theorem pyIn_generalBanner (tools : List (String × String)) (tr : List String)
    (query : String) (he : tr.isEmpty = true) :
    pyIn generalBanner (fullPrompt tools tr query) = true := by
  apply pyIn_decomp _ _
    ((promptHead tools query tr ++ banner1 tr ++ "\n\n" ++ banner2 tr ++ "\n\n").data)
    (promptTail.data)
  have hb : banner3 tr = generalBanner := by simp [banner3, he]
  rw [← hb]
  simp [fullPrompt, String.data_append, List.append_assoc]

/-! ## Claim C1 -/

/-- C1: whenever the arguments carry a repository type whose lower-casing is
"private" and `token_available = false`, `call_tool` fails with the
access-denied `ValueError`, the error propagates to the caller (it is the
returned exception, not a fallback result), and the trace of external
tool-server calls and subprocess launches is empty. -/
theorem call_tool_private_without_token_denied (st : MCPState)
    (mcpImportOk connectOk : Bool) (session : Session)
    (jsonLoads : String → Option (List (String × String)))
    (tool_name : String) (args : ToolArgs)
    (hconn : st.connected = true)
    (htype : pyLower args.repository_type = "private")
    (htok : args.token_available = false) :
    call_tool st mcpImportOk connectOk session jsonLoads tool_name args
      = (.error accessDeniedError, []) := by
  unfold call_tool
  simp [hconn, htype, htok]

/-- Witness for C1 at a concrete connected state and arguments. -/
theorem call_tool_private_without_token_denied_witness :
    ({ connected := true } : MCPState).connected = true
    ∧ pyLower "Private" = "private"
    ∧ call_tool { connected := true } true true ⟨[], fun _ => .ok []⟩ (fun _ => none)
        "repository_analysis"
        { repository_url := "https://github.com/a/b", repository_type := "Private",
          token_available := false }
      = (.error accessDeniedError, []) :=
  ⟨rfl, by decide,
   call_tool_private_without_token_denied _ _ _ _ _ _ _ rfl (by decide) rfl⟩

/-! ## Claim C4 -/

/-- C4 counterexample: with identical `(repository_url, access_type,
tool_name)` the fallback synthesis produces different output depending on the
instance field `github_token`, so it is not an input-only function of the
claimed triple (the token-status line of the private document differs). -/
theorem fallback_analysis_depends_on_token :
    fallback_analysis (some "ghp_tok") "u" "private" "t"
      ≠ fallback_analysis none "u" "private" "t" := by
  have e1 : fallback_analysis (some "ghp_tok") "u" "private" "t"
      = fallbackPrivate (some "ghp_tok") "u" "t" := rfl
  have e2 : fallback_analysis none "u" "private" "t"
      = fallbackPrivate none "u" "t" := rfl
  rw [e1, e2]
  intro h
  have hd := congrArg String.data h
  have f1 : (if pyTruthyOpt (some "ghp_tok") then ("✅ Configured" : String) else "❌ Missing")
      = "✅ Configured" := rfl
  have f2 : (if pyTruthyOpt (none : Option String) then ("✅ Configured" : String) else "❌ Missing")
      = "❌ Missing" := rfl
  simp only [fallbackPrivate, f1, f2, String.data_append, List.append_assoc,
    List.append_cancel_left_eq] at hd
  exact absurd hd (by decide)

/-- C4 amended: fallback synthesis is a deterministic, I/O-free function of
`(repository_url, access_type, tool_name)` together with the truthiness of
the instance GitHub token — agreeing on those four inputs yields identical
output — and the document selection is as originally claimed: with no URL it
emits the generic methodology document, with a URL it emits the public or
private access-type-specific document (the private one carrying the
token-presence flag). -/
theorem fallback_analysis_input_only (t1 t2 : Option String)
    (repo_url repo_type tool_name : String)
    (h : pyTruthyOpt t1 = pyTruthyOpt t2) :
    fallback_analysis t1 repo_url repo_type tool_name
      = fallback_analysis t2 repo_url repo_type tool_name
    ∧ (repo_url = "" →
        fallback_analysis t1 repo_url repo_type tool_name = fallbackGeneric tool_name)
    ∧ (repo_url ≠ "" → pyLower repo_type = "public" →
        fallback_analysis t1 repo_url repo_type tool_name
          = fallbackPublic repo_url tool_name)
    ∧ (repo_url ≠ "" → pyLower repo_type = "private" →
        fallback_analysis t1 repo_url repo_type tool_name
          = fallbackPrivate t1 repo_url tool_name) := by
  refine ⟨by simp only [fallback_analysis, fallbackPrivate, h], ?_, ?_, ?_⟩
  · intro he
    subst he
    simp [fallback_analysis]
  · intro hne hpub
    have hu : (repo_url == "") = false := by simpa using hne
    simp [fallback_analysis, hu, hpub]
  · intro hne hpriv
    have hu : (repo_url == "") = false := by simpa using hne
    simp [fallback_analysis, hu, hpriv]

/-- Witness for the amended C4: two distinct concrete tokens of equal
truthiness give identical output, and a concrete private call selects the
private document. -/
theorem fallback_analysis_input_only_witness :
    pyTruthyOpt (some "x") = pyTruthyOpt (some "y")
    ∧ fallback_analysis (some "x") "https://github.com/a/b" "private" "t"
        = fallback_analysis (some "y") "https://github.com/a/b" "private" "t"
    ∧ fallback_analysis (some "x") "https://github.com/a/b" "private" "t"
        = fallbackPrivate (some "x") "https://github.com/a/b" "t" :=
  ⟨by decide,
   (fallback_analysis_input_only (some "x") (some "y")
     "https://github.com/a/b" "private" "t" (by decide)).1,
   (fallback_analysis_input_only (some "x") (some "y")
     "https://github.com/a/b" "private" "t" (by decide)).2.2.2
     (by decide) (by decide)⟩

/-! ## Claim C7 -/

/-- C7 counterexample: a process that exits within the timeout with a
non-zero return code but "MCP server" in its captured stderr is declared
Available, contradicting "any non-clean exit within the timeout yields
Unavailable". -/
theorem test_mcp_server_unclean_exit_available :
    (test_mcp_server (.completed 1 "2024-01-01 MCP server crashed")).1 = true
    ∧ (1 : Int) ≠ 0 := by
  decide

/-- C7 amended: the probe declares Available exactly when the process exits
within the timeout with either a zero return code or "MCP server" occurring
in its stderr, or when it is still running at the timeout; in the
still-running case (and only then) the process is killed. Launch exceptions
yield Unavailable, and the probe never propagates a failure (it is a total
function into a verdict). -/
theorem test_mcp_server_verdict (o : ProbeOutcome) :
    ((test_mcp_server o).1 = true ↔
      (∃ rc stderr, o = .completed rc stderr
        ∧ (rc = 0 ∨ pyIn "MCP server" stderr = true))
      ∨ o = .timedOut)
    ∧ ((test_mcp_server o).2 = true ↔ o = .timedOut) := by
  cases o with
  | launchError msg => simp [test_mcp_server]
  | completed rc stderr =>
    constructor
    · simp only [test_mcp_server, Bool.or_eq_true, beq_iff_eq]
      constructor
      · intro h
        exact Or.inl ⟨rc, stderr, rfl, h⟩
      · rintro (⟨rc2, st2, heq, h⟩ | h)
        · cases heq
          exact h
        · cases h
    · simp [test_mcp_server]
  | timedOut => simp [test_mcp_server]

/-! ## Claim C8 -/

/-- C8 counterexample: when the test call of the single candidate fails, the
resolution error detail embeds only the underlying error text — it does not
list the attempted identifier "amazon.nova-pro-v1:0", contradicting "the
failure detail lists all attempted identifiers". -/
theorem find_and_test_nova_model_detail_lacks_identifier :
    find_and_test_nova_model (fun _ => .error "Read timeout on endpoint")
      = .error "Could not access Nova Pro model. Error: Read timeout on endpoint"
    ∧ novaCandidates = ["amazon.nova-pro-v1:0"]
    ∧ pyIn "amazon.nova-pro-v1:0"
        "Could not access Nova Pro model. Error: Read timeout on endpoint" = false :=
  ⟨rfl, rfl, by decide⟩

/-- C8 amended: resolution fails iff every candidate in the (single-element)
ordered list fails its synthetic test call, the failure detail embedding the
underlying error text; when the test call of the candidate succeeds, resolution
succeeds and pins that identifier in the configuration used by subsequent
inference calls. -/
theorem find_and_test_nova_model_spec (cfg : ConfigState)
    (testCall : String → Except String Unit) :
    ((∃ msg, find_and_test_nova_model testCall = .error msg)
      ↔ ∀ c ∈ novaCandidates, ∃ e, testCall c = .error e)
    ∧ (∀ m, find_and_test_nova_model testCall = .ok m →
        m ∈ novaCandidates ∧ testCall m = .ok ()
          ∧ resolveAndPin cfg testCall = .ok { cfg with bedrock_model_id := m }
          ∧ call_bedrock_model_used { cfg with bedrock_model_id := m } = m)
    ∧ (∀ msg, find_and_test_nova_model testCall = .error msg →
        ∃ e, testCall "amazon.nova-pro-v1:0" = .error e
          ∧ msg = "Could not access Nova Pro model. Error: " ++ e) := by
  cases h : testCall "amazon.nova-pro-v1:0" with
  | ok u =>
    cases u
    refine ⟨?_, ?_, ?_⟩
    · simp [find_and_test_nova_model, h, novaCandidates]
    · intro m hm
      simp only [find_and_test_nova_model, h] at hm
      cases hm
      exact ⟨by simp [novaCandidates], h,
        by simp [resolveAndPin, find_and_test_nova_model, h],
        rfl⟩
    · intro msg hmsg
      simp [find_and_test_nova_model, h] at hmsg
  | error e =>
    refine ⟨?_, ?_, ?_⟩
    · simp [find_and_test_nova_model, h, novaCandidates]
    · intro m hm
      simp [find_and_test_nova_model, h] at hm
    · intro msg hmsg
      simp only [find_and_test_nova_model, h, Except.error.injEq] at hmsg
      exact ⟨e, rfl, hmsg.symm⟩

/-- Witness for the amended C8: a succeeding test call pins the identifier. -/
theorem find_and_test_nova_model_spec_witness :
    find_and_test_nova_model (fun _ => .ok ()) = .ok "amazon.nova-pro-v1:0"
    ∧ ("amazon.nova-pro-v1:0" ∈ novaCandidates
        ∧ (fun _ : String => (.ok () : Except String Unit)) "amazon.nova-pro-v1:0" = .ok ()
        ∧ resolveAndPin {} (fun _ => .ok ())
            = .ok { bedrock_model_id := "amazon.nova-pro-v1:0" }
        ∧ call_bedrock_model_used { bedrock_model_id := "amazon.nova-pro-v1:0" }
            = "amazon.nova-pro-v1:0") :=
  ⟨rfl, (find_and_test_nova_model_spec {} (fun _ => .ok ())).2.1 "amazon.nova-pro-v1:0" rfl⟩

/-! ## Claim C10 -/

/-- Setup always ends connected, whatever the probe outcomes. -/
theorem setup_client_connected (st : MCPState) (u s x : Bool) :
    (setup_client st u s x).1 = true ∧ (setup_client st u s x).2.connected = true := by
  cases u <;> cases s <;> cases x <;> simp [setup_client, setup_fallback]

/-- C10: on a freshly constructed integration object (and after `close`),
`list_tools` and `call_tool` raise the not-initialized `RuntimeError` and
dispatch nothing; `setup_client` always returns `True` with the client
connected — every failure path ends in fallback mode — so after setup neither
call can raise the not-initialized error. -/
theorem client_lifecycle_guards :
    (list_tools {} = .error notInitError)
    ∧ (∀ (mcpImportOk connectOk : Bool) (session : Session)
        (jsonLoads : String → Option (List (String × String)))
        (tool_name : String) (args : ToolArgs),
        call_tool ({} : MCPState) mcpImportOk connectOk session jsonLoads tool_name args
          = (.error notInitError, []))
    ∧ (∀ st : MCPState, list_tools (closeClient st) = .error notInitError)
    ∧ (∀ (st : MCPState) (mcpImportOk connectOk : Bool) (session : Session)
        (jsonLoads : String → Option (List (String × String)))
        (tool_name : String) (args : ToolArgs),
        call_tool (closeClient st) mcpImportOk connectOk session jsonLoads tool_name args
          = (.error notInitError, []))
    ∧ (∀ (st : MCPState) (u s x : Bool),
        (setup_client st u s x).1 = true ∧ (setup_client st u s x).2.connected = true)
    ∧ (∀ (st : MCPState) (u s x : Bool),
        ∃ ts, list_tools (setup_client st u s x).2 = .ok ts)
    ∧ (∀ (st : MCPState) (u s x mcpImportOk connectOk : Bool) (session : Session)
        (jsonLoads : String → Option (List (String × String)))
        (tool_name : String) (args : ToolArgs),
        (call_tool (setup_client st u s x).2 mcpImportOk connectOk session jsonLoads
            tool_name args).1 ≠ .error notInitError) := by
  refine ⟨rfl, fun _ _ _ _ _ _ => rfl, fun st => rfl, fun _ _ _ _ _ _ _ => rfl,
    setup_client_connected, ?_, ?_⟩
  · intro st u s x
    exact ⟨(setup_client st u s x).2.tools_cache.getD [],
      by simp [list_tools, (setup_client_connected st u s x).2]⟩
  · intro st u s x mcpImportOk connectOk session jsonLoads tool_name args
    have hc := (setup_client_connected st u s x).2
    simp only [call_tool, hc, Bool.not_true, Bool.false_eq_true, if_false]
    split
    · simp [accessDeniedError, notInitError]
    · split <;> simp

/-! ## Claim C6 -/

/-- C6: for one topical query the orchestrator tries the index-address
variants strictly in list order; the first variant whose response passes the
acceptance test (nonempty content, neither the zero-matches nor the error
marker) is recorded as the result for the query, and no later variant is attempted:
the issued calls are exactly the failing prefix plus the accepted variant. -/
theorem search_first_good_variant (session : Session) (query : String)
    (pre : List String) (b : String) (post : List String) (items : List String)
    (hpre : ∀ v ∈ pre, searchGood (session.respond (ToolCall.search v query 3)) = false)
    (hb : session.respond (ToolCall.search b query 3) = .ok items)
    (hne : items.isEmpty = false)
    (hm1 : pyIn zeroMatchesMarker (pyConcat items) = false)
    (hm2 : pyIn searchErrorMarker (pyConcat items) = false) :
    searchQueryRun session query (pre ++ b :: post)
      = (some ("**Search Results for \x27" ++ query ++ "\x27:**\n" ++ pyConcat items),
         (pre ++ [b]).map (fun v => ToolCall.search v query 3)) := by
  induction pre with
  | nil =>
    simp [searchQueryRun, hb, hne, hm1, hm2]
  | cons v vs ih =>
    have hv := hpre v (List.mem_cons_self _ _)
    have ihh := ih (fun w hw => hpre w (List.mem_cons_of_mem _ hw))
    cases hresp : session.respond (ToolCall.search v query 3) with
    | error e =>
      simp [searchQueryRun, hresp, ihh]
    | ok items2 =>
      have hv2 : searchGood (Except.ok items2 : Except String (List String)) = false := by
        rw [← hresp]
        exact hv
      cases hE : items2.isEmpty with
      | true =>
        simp [searchQueryRun, hresp, hE, ihh]
      | false =>
        have hcond : (!(pyIn zeroMatchesMarker (pyConcat items2))
            && !(pyIn searchErrorMarker (pyConcat items2))) = false := by
          simp only [searchGood, hE, Bool.not_false, Bool.true_and] at hv2
          exact hv2
        simp [searchQueryRun, hresp, hE, hcond, ihh]

/-- Concrete session for the C6 witness: variant A responds with empty
content, B with usable content, C with usable content that must never be
requested. -/
def sessionC6 : Session :=
  { availableTools := ["search_research_repository"],
    respond := fun c =>
      match c with
      | .search ip _ _ =>
        if ip == "A" then .ok []
        else if ip == "B" then .ok ["B content"]
        else if ip == "C" then .ok ["C content"]
        else .error "no such index"
      | _ => .error "unexpected" }

/-- Witness for C6 on the variant list [A, B, C] where only B is usable:
the recorded result is the content of B and C is never attempted. -/
theorem search_first_good_variant_witness :
    (∀ v ∈ ["A"], searchGood (sessionC6.respond (ToolCall.search v "q" 3)) = false)
    ∧ sessionC6.respond (ToolCall.search "B" "q" 3) = .ok ["B content"]
    ∧ searchQueryRun sessionC6 "q" (["A"] ++ "B" :: ["C"])
        = (some ("**Search Results for \x27q\x27:**\n" ++ pyConcat ["B content"]),
           (["A"] ++ ["B"]).map (fun v => ToolCall.search v "q" 3)) :=
  ⟨by decide, rfl,
   search_first_good_variant sessionC6 "q" ["A"] "B" ["C"] ["B content"]
     (by decide) rfl rfl (by decide) (by decide)⟩

/-! ## Trace-shape lemmas for the pipeline stages -/

/-- The index stage issues exactly one create call when the tool is
advertised, none otherwise. -/
theorem indexStage_trace (session : Session)
    (jsonLoads : String → Option (List (String × String))) (repo_url : String) :
    (indexStage session jsonLoads repo_url).2.2.2
      = if session.availableTools.contains "create_research_repository"
        then [ToolCall.create repo_url "amazon.titan-embed-text-v2:0"] else [] := by
  simp only [indexStage]
  split
  · split
    · rfl
    · split <;> rfl
  · rfl

/-- One step of the file-access variant loop: the trace starts with the call
for the first variant and is followed by the trace of the recursion or nothing. -/
theorem fileQueryRun_trace_step (session : Session) (file fp : String)
    (rest : List String) :
    (fileQueryRun session file (fp :: rest)).2
        = ToolCall.accessFile fp :: (fileQueryRun session file rest).2
      ∨ (fileQueryRun session file (fp :: rest)).2 = [ToolCall.accessFile fp] := by
  simp only [fileQueryRun]
  split
  · exact Or.inl rfl
  · split
    · exact Or.inl rfl
    · split
      · exact Or.inr rfl
      · exact Or.inl rfl

/-- Every call issued by the file-access variant loop is an `accessFile` call
on one of the given path variants. -/
theorem fileQueryRun_trace_access (session : Session) (file : String) :
    ∀ (ps : List String), ∀ x ∈ (fileQueryRun session file ps).2,
      ∃ fp ∈ ps, x = ToolCall.accessFile fp := by
  intro ps
  induction ps with
  | nil => intro x hx; simp [fileQueryRun] at hx
  | cons fp rest ih =>
    intro x hx
    rcases fileQueryRun_trace_step session file fp rest with hs | hs
    · rw [hs] at hx
      rcases List.mem_cons.mp hx with h | h
      · exact ⟨fp, List.mem_cons_self _ _, h⟩
      · rcases ih x h with ⟨fp2, hfp2, hx2⟩
        exact ⟨fp2, List.mem_cons_of_mem _ hfp2, hx2⟩
    · rw [hs] at hx
      rcases List.mem_cons.mp hx with h | h
      · exact ⟨fp, List.mem_cons_self _ _, h⟩
      · simp at h

/-- Every call issued by the file-access stage is an `accessFile` call on a
path variant of one of the well-known files. -/
theorem fileLoop_trace_access (session : Session) (rn : String) :
    ∀ (fs : List String), ∀ x ∈ (fileLoop session rn fs).2,
      ∃ f ∈ fs, ∃ fp ∈ possibleFilePaths rn f, x = ToolCall.accessFile fp := by
  intro fs
  induction fs with
  | nil => intro x hx; simp [fileLoop] at hx
  | cons f rest ih =>
    intro x hx
    have hx2 : x ∈ (fileQueryRun session f (possibleFilePaths rn f)).2
        ++ (fileLoop session rn rest).2 := hx
    rcases List.mem_append.mp hx2 with h | h
    · rcases fileQueryRun_trace_access session f _ x h with ⟨fp, hfp, hxe⟩
      exact ⟨f, List.mem_cons_self _ _, fp, hfp, hxe⟩
    · rcases ih x h with ⟨f2, hf2, fp, hfp, hxe⟩
      exact ⟨f2, List.mem_cons_of_mem _ hf2, fp, hfp, hxe⟩

/-- The file-access stage always issues at least the first variant call for
the first well-known file. -/
theorem fileLoop_trace_head (session : Session) (rn f : String) (fs : List String) :
    ToolCall.accessFile (rn ++ "/repository/" ++ f) ∈ (fileLoop session rn (f :: fs)).2 := by
  have step := fileQueryRun_trace_step session f (rn ++ "/repository/" ++ f)
    [rn ++ "_git/repository/" ++ f, rn ++ "/" ++ f, rn ++ "_git/" ++ f]
  have hmem : ToolCall.accessFile (rn ++ "/repository/" ++ f)
      ∈ (fileQueryRun session f (possibleFilePaths rn f)).2 := by
    rcases step with hs | hs <;>
      · show ToolCall.accessFile _ ∈ (fileQueryRun session f
          ((rn ++ "/repository/" ++ f) :: [rn ++ "_git/repository/" ++ f,
            rn ++ "/" ++ f, rn ++ "_git/" ++ f])).2
        rw [hs]
        exact List.mem_cons_self _ _
  exact List.mem_append.mpr (Or.inl hmem)

/-- One step of the search variant loop, analogous to
`fileQueryRun_trace_step`. -/
theorem searchQueryRun_trace_step (session : Session) (query ip : String)
    (rest : List String) :
    (searchQueryRun session query (ip :: rest)).2
        = ToolCall.search ip query 3 :: (searchQueryRun session query rest).2
      ∨ (searchQueryRun session query (ip :: rest)).2 = [ToolCall.search ip query 3] := by
  simp only [searchQueryRun]
  split
  · exact Or.inl rfl
  · split
    · exact Or.inl rfl
    · split
      · exact Or.inr rfl
      · exact Or.inl rfl

/-- Every call issued by the search variant loop is a `search` call with the
given query and one of the given index-path variants. -/
theorem searchQueryRun_trace_search (session : Session) (query : String) :
    ∀ (vs : List String), ∀ x ∈ (searchQueryRun session query vs).2,
      ∃ v ∈ vs, x = ToolCall.search v query 3 := by
  intro vs
  induction vs with
  | nil => intro x hx; simp [searchQueryRun] at hx
  | cons ip rest ih =>
    intro x hx
    rcases searchQueryRun_trace_step session query ip rest with hs | hs
    · rw [hs] at hx
      rcases List.mem_cons.mp hx with h | h
      · exact ⟨ip, List.mem_cons_self _ _, h⟩
      · rcases ih x h with ⟨v, hv, hxe⟩
        exact ⟨v, List.mem_cons_of_mem _ hv, hxe⟩
    · rw [hs] at hx
      rcases List.mem_cons.mp hx with h | h
      · exact ⟨ip, List.mem_cons_self _ _, h⟩
      · simp at h

/-- Every call issued by the search stage is a `search` call on one of the
topical queries with one of the index-path variants. -/
theorem searchLoop_trace_search (session : Session) (rn ru : String) :
    ∀ (qs : List String), ∀ x ∈ (searchLoop session rn ru qs).2,
      ∃ q ∈ qs, ∃ v ∈ possibleIndexPaths rn ru, x = ToolCall.search v q 3 := by
  intro qs
  induction qs with
  | nil => intro x hx; simp [searchLoop] at hx
  | cons q rest ih =>
    intro x hx
    have hx2 : x ∈ (searchQueryRun session q (possibleIndexPaths rn ru)).2
        ++ (searchLoop session rn ru rest).2 := hx
    rcases List.mem_append.mp hx2 with h | h
    · rcases searchQueryRun_trace_search session q _ x h with ⟨v, hv, hxe⟩
      exact ⟨q, List.mem_cons_self _ _, v, hv, hxe⟩
    · rcases ih x h with ⟨q2, hq2, v, hv, hxe⟩
      exact ⟨q2, List.mem_cons_of_mem _ hq2, v, hv, hxe⟩

/-- Decomposition of the pipeline trace into its three stage traces. -/
theorem comprehensive_trace (session : Session)
    (jsonLoads : String → Option (List (String × String))) (repo_url : String) :
    (comprehensive_repository_analysis session jsonLoads repo_url).2
      = (indexStage session jsonLoads repo_url).2.2.2
        ++ (if (indexStage session jsonLoads repo_url).2.1
              && session.availableTools.contains "search_research_repository"
            then (searchLoop session (indexStage session jsonLoads repo_url).2.2.1
              repo_url searchQueries).2 else [])
        ++ (if session.availableTools.contains "access_file"
            then (fileLoop session (indexStage session jsonLoads repo_url).2.2.1 keyFiles).2
            else []) := by
  simp only [comprehensive_repository_analysis]
  split <;> split <;> rfl

/-! ## Claim C5 -/

/-- C5: when the index-build stage fails (no index is created), the pipeline
issues no search call at all, while the file-access stage still runs — at
least one file-access call is issued whenever the file tool is advertised. -/
theorem index_failure_skips_search (session : Session)
    (jsonLoads : String → Option (List (String × String))) (repo_url : String)
    (hfail : (indexStage session jsonLoads repo_url).2.1 = false) :
    (∀ ip q l, ToolCall.search ip q l ∉
        (comprehensive_repository_analysis session jsonLoads repo_url).2)
    ∧ (session.availableTools.contains "access_file" = true →
        ∃ fp, ToolCall.accessFile fp ∈
          (comprehensive_repository_analysis session jsonLoads repo_url).2) := by
  have htr := comprehensive_trace session jsonLoads repo_url
  rw [hfail] at htr
  simp only [Bool.false_and, Bool.false_eq_true, if_false] at htr
  constructor
  · intro ip q l hmem
    rw [htr] at hmem
    rcases List.mem_append.mp hmem with h | h
    · rcases List.mem_append.mp h with h1 | h2
      · rw [indexStage_trace] at h1
        by_cases hc : session.availableTools.contains "create_research_repository" = true
        · rw [if_pos hc] at h1
          simp at h1
        · rw [if_neg hc] at h1
          simp at h1
      · simp at h2
    · by_cases hc : session.availableTools.contains "access_file" = true
      · rw [if_pos hc] at h
        rcases fileLoop_trace_access session _ keyFiles _ h with ⟨f, _, fp, _, hx⟩
        simp at hx
      · rw [if_neg hc] at h
        simp at h
  · intro hc
    refine ⟨(indexStage session jsonLoads repo_url).2.2.1 ++ "/repository/" ++ "README.md", ?_⟩
    rw [htr]
    refine List.mem_append.mpr (Or.inr ?_)
    rw [if_pos hc]
    exact fileLoop_trace_head session _ "README.md"
      ["package.json", "requirements.txt", "Dockerfile", "setup.py"]

/-- A `json.loads` oracle that always fails to decode (shared by witnesses whose
index content is not JSON). -/
def jsonLoadsNone : String → Option (List (String × String)) := fun _ => none

/-- Concrete session for the C5 witness: the index-build call raises, search
and file-access calls return empty content. -/
def sessionC5 : Session :=
  { availableTools := ["create_research_repository", "search_research_repository", "access_file"],
    respond := fun c =>
      match c with
      | .create _ _ => .error "AccessDeniedException"
      | _ => .ok [] }

/-- Witness for C5: with a failing index build, no search call appears in the
trace and a file-access call does. -/
theorem index_failure_skips_search_witness :
    (indexStage sessionC5 jsonLoadsNone "https://github.com/a/b").2.1 = false
    ∧ (∀ ip q l, ToolCall.search ip q l ∉
        (comprehensive_repository_analysis sessionC5 jsonLoadsNone "https://github.com/a/b").2)
    ∧ (sessionC5.availableTools.contains "access_file" = true →
        ∃ fp, ToolCall.accessFile fp ∈
          (comprehensive_repository_analysis sessionC5 jsonLoadsNone "https://github.com/a/b").2) :=
  ⟨rfl, (index_failure_skips_search sessionC5 jsonLoadsNone "https://github.com/a/b" rfl).1,
   (index_failure_skips_search sessionC5 jsonLoadsNone "https://github.com/a/b" rfl).2⟩

/-! ## Claim C3 -/

/-- Concrete session for C3: the index build returns a JSON object naming the
index "b_idx"; searches against "b_idx" report an error, against "b_idx_git"
empty content, and against the URL-derived "b" usable content. -/
def sessionC3 : Session :=
  { availableTools := ["create_research_repository", "search_research_repository"],
    respond := fun c =>
      match c with
      | .create _ _ => .ok ["\x7b\"index_path\": \"b_idx\"\x7d"]
      | .search ip _ _ =>
        if ip == "b_idx" then .ok ["Error searching: index missing"]
        else if ip == "b_idx_git" then .ok []
        else if ip == "b" then .ok ["found architecture docs"]
        else .ok []
      | _ => .ok [] }

/-- A `json.loads` oracle for the C3 create-stage content. -/
def jsonLoadsC3 : String → Option (List (String × String)) :=
  fun s =>
    if s == "\x7b\"index_path\": \"b_idx\"\x7d" then some [("index_path", "b_idx")]
    else none

/-- C3 counterexample: the index stage returns index_path "b_idx" and the
override is applied (the repository name of the stage becomes "b_idx"), yet a
subsequent search call is issued with the URL-derived address "b" — the
overridden address is not used for every later call. -/
theorem override_still_tries_url_variants :
    (indexStage sessionC3 jsonLoadsC3 "https://github.com/a/b").2.2.1 = "b_idx"
    ∧ ToolCall.search "b" "README documentation overview" 3
        ∈ (comprehensive_repository_analysis sessionC3 jsonLoadsC3 "https://github.com/a/b").2 :=
  ⟨rfl, by decide⟩

/-- C3 amended: a structured `index_path` field in the index-build response
overrides the locally derived repository identifier: the name used by the
later stages becomes the last path component of the override; every subsequent
search call addresses a variant of the prioritized list built from the
overridden name — a list that still ends with the URL-derived tail (with and
without the ".git" suffix) as lower-priority fallbacks, attempted when the
overridden variants fail — and every file-access call uses a path built from
the overridden name only. -/
theorem index_path_override (session : Session)
    (jsonLoads : String → Option (List (String × String))) (repo_url p : String)
    (items : List String) (kvs : List (String × String))
    (htool : session.availableTools.contains "create_research_repository" = true)
    (hresp : session.respond (ToolCall.create repo_url "amazon.titan-embed-text-v2:0")
      = .ok items)
    (hne : items.isEmpty = false)
    (hbrace : pyStartswith (pyStrip (pyConcat items)) "\x7b" = true)
    (hjson : jsonLoads (pyConcat items) = some kvs)
    (hlookup : kvs.lookup "index_path" = some p) :
    (indexStage session jsonLoads repo_url).2.2.1 = pySplitLast p "/"
    ∧ (∀ x ∈ (comprehensive_repository_analysis session jsonLoads repo_url).2,
        (∀ ip q l, x = ToolCall.search ip q l →
          ip ∈ possibleIndexPaths (pySplitLast p "/") repo_url)
        ∧ (∀ fp, x = ToolCall.accessFile fp →
          ∃ f ∈ keyFiles, fp ∈ possibleFilePaths (pySplitLast p "/") f)) := by
  have hrn : (indexStage session jsonLoads repo_url).2.2.1 = pySplitLast p "/" := by
    have hmem : "create_research_repository" ∈ session.availableTools := by
      simpa using htool
    simp [indexStage, hmem, hresp, hne, hbrace, hjson, hlookup]
  refine ⟨hrn, ?_⟩
  intro x hx
  rw [comprehensive_trace] at hx
  rcases List.mem_append.mp hx with h | h
  · rcases List.mem_append.mp h with h1 | h2
    · rw [indexStage_trace, if_pos htool] at h1
      rcases List.mem_singleton.mp h1 with rfl
      constructor
      · intro ip q l hxe
        simp at hxe
      · intro fp hxe
        simp at hxe
    · by_cases hc : ((indexStage session jsonLoads repo_url).2.1
          && session.availableTools.contains "search_research_repository") = true
      · rw [if_pos hc] at h2
        rcases searchLoop_trace_search session _ repo_url searchQueries x h2
          with ⟨q, _, v, hv, rfl⟩
        rw [hrn] at hv
        constructor
        · intro ip q2 l hxe
          injection hxe with e1 e2 e3
          subst e1
          exact hv
        · intro fp hxe
          simp at hxe
      · rw [if_neg hc] at h2
        simp at h2
  · by_cases hc : session.availableTools.contains "access_file" = true
    · rw [if_pos hc] at h
      rcases fileLoop_trace_access session _ keyFiles x h with ⟨f, hf, fp, hfp, rfl⟩
      rw [hrn] at hfp
      constructor
      · intro ip q l hxe
        simp at hxe
      · intro fp2 hxe
        injection hxe with e1
        subst e1
        exact ⟨f, hf, hfp⟩
    · rw [if_neg hc] at h
      simp at h

/-- Witness for the amended C3 at the concrete session: the override "b_idx"
becomes the stage name and all issued calls stay within the variant lists
built from it. -/
theorem index_path_override_witness :
    sessionC3.respond (ToolCall.create "https://github.com/a/b" "amazon.titan-embed-text-v2:0")
        = .ok ["\x7b\"index_path\": \"b_idx\"\x7d"]
    ∧ (indexStage sessionC3 jsonLoadsC3 "https://github.com/a/b").2.2.1
        = pySplitLast "b_idx" "/"
    ∧ (∀ x ∈ (comprehensive_repository_analysis sessionC3 jsonLoadsC3 "https://github.com/a/b").2,
        (∀ ip q l, x = ToolCall.search ip q l →
          ip ∈ possibleIndexPaths (pySplitLast "b_idx" "/") "https://github.com/a/b")
        ∧ (∀ fp, x = ToolCall.accessFile fp →
          ∃ f ∈ keyFiles, fp ∈ possibleFilePaths (pySplitLast "b_idx" "/") f)) :=
  ⟨rfl,
   (index_path_override sessionC3 jsonLoadsC3 "https://github.com/a/b" "b_idx"
     ["\x7b\"index_path\": \"b_idx\"\x7d"] [("index_path", "b_idx")]
     (by decide) rfl rfl (by decide) (by decide) rfl).1,
   (index_path_override sessionC3 jsonLoadsC3 "https://github.com/a/b" "b_idx"
     ["\x7b\"index_path\": \"b_idx\"\x7d"] [("index_path", "b_idx")]
     (by decide) rfl rfl (by decide) (by decide) rfl).2⟩

/-! ## Claim C2 -/

/-- Concrete session for C2: indexing succeeds with plain (non-JSON) content;
the comprehensive search variants return empty content; file accesses return
short usable content; the additional generic search (limit 5) returns short
content so the additional-tool results stay under the 100-character keep
threshold. -/
def sessionC2 : Session :=
  { availableTools := ["create_research_repository", "search_research_repository", "access_file"],
    respond := fun c =>
      match c with
      | .create _ _ => .ok ["Index created at /idx/b with 42 files"]
      | .search _ _ 3 => .ok []
      | .search _ _ _ => .ok ["x"]
      | .accessFile _ => .ok ["y"]
      | _ => .ok [] }

/-- Live-mode client state for the C2 scenario. -/
def mcpC2 : MCPState :=
  { github_token := none, tools_cache := some liveToolsCache, connected := true,
    public_mode := false, mcp_available := true }

/-- Agent state for the C2 scenario. -/
def agC2 : AgentState := { github_token := none, initialized := true, mcp := mcpC2 }

/-- Query of the C2 scenario. -/
def queryC2 : String :=
  "Repository: https://github.com/a/b\nType: Public\nWhat is the architecture?"

/-- Arguments `process_query` builds for the C2 scenario. -/
def argsC2 : ToolArgs :=
  { repository_url := "https://github.com/a/b", repository_type := "Public",
    token_available := false }

/-- The live comprehensive-analysis output of the C2 scenario. -/
def analysisTextC2 : String :=
  (comprehensive_repository_analysis sessionC2 jsonLoadsNone "https://github.com/a/b").1

/-- The gathered tool results of the C2 scenario. -/
def trC2 : List String :=
  (gatherToolResults agC2 true true sessionC2 jsonLoadsNone liveToolsCache
    (parse_repository_info queryC2)).1

/-- C2 counterexample: the comprehensive `repository_analysis` call returns a
live-origin result (real server data), that result is the only gathered tool
result, yet no result text contains the literal real-data marker, so the
assembled prompt selects the guidance-only banner — the real-data banner
segment is empty and live tool data is presented under the guidance banner,
refuting "live tool data is never presented under the guidance banner". -/
theorem live_data_under_guidance_banner :
    (call_tool mcpC2 true true sessionC2 jsonLoadsNone "repository_analysis" argsC2).1
      = .ok (analysisTextC2, Origin.live)
    ∧ trC2 = ["**Comprehensive Repository Analysis**: " ++ analysisTextC2]
    ∧ hasRealData trC2 = false
    ∧ banner1 trC2 = ""
    ∧ banner2 trC2 = guidanceBanner
    ∧ process_query_prompt agC2 true true sessionC2 jsonLoadsNone queryC2
        = .ok (fullPrompt liveToolsCache trC2 queryC2,
          (gatherToolResults agC2 true true sessionC2 jsonLoadsNone liveToolsCache
            (parse_repository_info queryC2)).2)
    ∧ pyIn guidanceBanner (fullPrompt liveToolsCache trC2 queryC2) = true :=
  ⟨rfl, by decide, by decide, by decide, by decide, rfl,
   pyIn_guidanceBanner liveToolsCache trC2 queryC2 (by decide) (by decide)⟩

/-- C2 amended: exactly one disclosure banner segment is ever nonempty, and
the three-way branch is driven by the gathered result texts, not by their
origin: the real-data banner appears iff some result text contains the
literal marker "Real Repository Data from MCP Server", the guidance banner
iff results exist and none contains the marker, and the general banner iff no
results were gathered; live results whose text lacks the marker (such as
comprehensive-analysis output) therefore fall under the guidance banner. -/
theorem banner_three_way_selection (tools : List (String × String))
    (tr : List String) (query : String) :
    (hasRealData tr = true →
      banner1 tr = realBanner ∧ banner2 tr = "" ∧ banner3 tr = ""
      ∧ pyIn realBanner (fullPrompt tools tr query) = true)
    ∧ (hasRealData tr = false → tr.isEmpty = false →
      banner2 tr = guidanceBanner ∧ banner1 tr = "" ∧ banner3 tr = ""
      ∧ pyIn guidanceBanner (fullPrompt tools tr query) = true)
    ∧ (tr.isEmpty = true →
      banner3 tr = generalBanner ∧ banner1 tr = "" ∧ banner2 tr = ""
      ∧ pyIn generalBanner (fullPrompt tools tr query) = true) := by
  refine ⟨?_, ?_, ?_⟩
  · intro h
    have hne := hasRealData_ne_nil h
    exact ⟨by simp [banner1, h], by simp [banner2, h], by simp [banner3, hne],
      pyIn_realBanner tools tr query h⟩
  · intro h hne
    exact ⟨by simp [banner2, h, hne], by simp [banner1, h], by simp [banner3, hne],
      pyIn_guidanceBanner tools tr query hne h⟩
  · intro he
    have h0 : hasRealData tr = false := by
      cases tr with
      | nil => rfl
      | cons a l => simp [List.isEmpty] at he
    exact ⟨by simp [banner3, he], by simp [banner1, h0], by simp [banner2, he],
      pyIn_generalBanner tools tr query he⟩

/-- Witness for the amended C2 at a marker-free nonempty result list: the
guidance banner is the selected segment and appears in the prompt. -/
theorem banner_three_way_selection_witness :
    hasRealData ["guidance text"] = false
    ∧ (banner2 ["guidance text"] = guidanceBanner
      ∧ banner1 ["guidance text"] = "" ∧ banner3 ["guidance text"] = ""
      ∧ pyIn guidanceBanner (fullPrompt [] ["guidance text"] "q") = true) :=
  ⟨by decide, (banner_three_way_selection [] ["guidance text"] "q").2.1 (by decide) rfl⟩

/-! ## Claim C9 -/

/-- A query none of whose stripped lines starts with one of the three labels
parses to the default context. -/
theorem parse_no_labels (query : String)
    (hlab : ∀ l ∈ pySplit query "\n",
        pyStartswith (pyStrip l) "Repository:" = false
        ∧ pyStartswith (pyStrip l) "Type:" = false
        ∧ pyStartswith (pyStrip l) "Token:" = false) :
    parse_repository_info query = {} := by
  have key : ∀ (ls : List String) (info : RepoInfo),
      (∀ l ∈ ls,
        pyStartswith (pyStrip l) "Repository:" = false
        ∧ pyStartswith (pyStrip l) "Type:" = false
        ∧ pyStartswith (pyStrip l) "Token:" = false) →
      ls.foldl parseLine info = info := by
    intro ls
    induction ls with
    | nil => intro info _; rfl
    | cons l rest ih =>
      intro info hc
      have h1 := hc l (List.mem_cons_self _ _)
      have hstep : parseLine info l = info := by
        simp [parseLine, h1.1, h1.2.1, h1.2.2]
      rw [List.foldl_cons, hstep]
      exact ih info (fun w hw => hc w (List.mem_cons_of_mem _ hw))
  exact key (pySplit query "\n") {} hlab

/-- C9: a query with no Repository:/Type:/Token: labeled lines parses to the
default repository context (`access_type` public, `has_repo` false); no tool
call is dispatched (empty trace); the assembled prompt carries no tool
results and contains the general-analysis banner. -/
theorem no_repo_fields_general_analysis (ag : AgentState) (mcpImportOk connectOk : Bool)
    (session : Session) (jsonLoads : String → Option (List (String × String)))
    (query : String)
    (hinit : ag.initialized = true)
    (hconn : ag.mcp.connected = true)
    (hlab : ∀ l ∈ pySplit query "\n",
        pyStartswith (pyStrip l) "Repository:" = false
        ∧ pyStartswith (pyStrip l) "Type:" = false
        ∧ pyStartswith (pyStrip l) "Token:" = false) :
    parse_repository_info query = {}
    ∧ process_query_prompt ag mcpImportOk connectOk session jsonLoads query
        = .ok (fullPrompt (ag.mcp.tools_cache.getD []) [] query, [])
    ∧ toolResultsText [] = ""
    ∧ banner3 ([] : List String) = generalBanner
    ∧ pyIn generalBanner (fullPrompt (ag.mcp.tools_cache.getD []) [] query) = true := by
  have hparse := parse_no_labels query hlab
  have hlt : list_tools ag.mcp = .ok (ag.mcp.tools_cache.getD []) := by
    simp [list_tools, hconn]
  refine ⟨hparse, ?_, rfl, rfl, pyIn_generalBanner _ _ _ rfl⟩
  simp [process_query_prompt, hinit, hparse, hlt, gatherToolResults]

/-- Agent state of the C9 witness: initialized, connected in fallback mode. -/
def agC9 : AgentState :=
  { github_token := none, initialized := true,
    mcp := { tools_cache := some fallbackToolsCache, connected := true } }

/-- Witness for C9 at a concrete initialized agent and the label-free query
"What is the architecture?". -/
theorem no_repo_fields_general_analysis_witness :
    agC9.initialized = true
    ∧ parse_repository_info "What is the architecture?" = {}
    ∧ process_query_prompt agC9 true true ⟨[], fun _ => .ok []⟩ jsonLoadsNone
        "What is the architecture?"
      = .ok (fullPrompt fallbackToolsCache [] "What is the architecture?", []) :=
  ⟨rfl,
   (no_repo_fields_general_analysis agC9 true true ⟨[], fun _ => .ok []⟩ jsonLoadsNone
     "What is the architecture?" rfl rfl (by decide)).1,
   (no_repo_fields_general_analysis agC9 true true ⟨[], fun _ => .ok []⟩ jsonLoadsNone
     "What is the architecture?" rfl rfl (by decide)).2.1⟩

end S2P
